import Mathlib

/-!
Shallow embedding of the Appointment Scheduling & Access-Control engine of the
Virtual-Gyn backend (Express + Supabase).  The definitions below are translated
from the route handlers in `routes/appointments.js`, `routes/patients.js`, the
middleware in `middleware/auth.js`, and the error classes in
`middleware/errorHandler.js`.  Ids, calendar dates and timestamps are modelled
as `Nat`; a clock time is minutes since midnight (the HH:MM pattern admits
exactly the values `< 1440`).
-/

namespace VG

deriving instance DecidableEq for Except

/-- The three user roles of the platform. -/
inductive Role where
  | patient
  | doctor
  | admin
deriving DecidableEq

/-- Appointment status enumeration (string values in the source). -/
inductive Status where
  | scheduled
  | confirmed
  | inProgress
  | completed
  | cancelled
  | noShow
deriving DecidableEq

/-- Appointment type enumeration. -/
inductive AptType where
  | consultation
  | followUp
  | emergency
  | routine
  | surgery
deriving DecidableEq

/-- A row of the `appointments` table, with the columns the routes read/write. -/
structure Appointment where
  id : Nat
  patientId : Nat
  doctorId : Nat
  appointmentDate : Nat
  appointmentTime : Nat
  duration : Nat
  type : AptType
  status : Status
  reason : Option String
  notes : Option String
  createdBy : Nat
  createdAt : Nat
  updatedAt : Nat
deriving DecidableEq

/-- Thrown route errors: the `ValidationError` / `NotFoundError` classes of
`errorHandler.js` (carrying the message passed to the constructor). -/
inductive ApiError where
  | validation (msg : String)
  | notFound (msg : String)
deriving DecidableEq

/-- The `status` field of the error classes: `ValidationError` is 400,
`NotFoundError` is 404. -/
def ApiError.statusCode : ApiError → Nat
  | .validation _ => 400
  | .notFound _ => 404

/-- The JSON body of `POST /appointments` after `validateAppointmentData`.
The client may also send `status` / `createdBy` / timestamp fields (the spread
`...req.body` copies them before the handler overrides are applied). -/
structure CreateBody where
  patientId : Nat
  doctorId : Nat
  appointmentDate : Nat
  appointmentTime : Nat
  duration : Nat
  type : AptType
  reason : Option String
  notes : Option String
  status : Option Status
  createdBy : Option Nat
  createdAt : Option Nat
  updatedAt : Option Nat
deriving DecidableEq

/-- `validateAppointmentData`: the time must match the HH:MM pattern
(hours 0–23, minutes 0–59, i.e. `< 1440` in minutes) and the duration must be
an integer in 15–240.  Id, date and enum well-formedness are carried by the
types of `CreateBody`. -/
def validCreate (b : CreateBody) : Bool :=
  b.appointmentTime < 1440 && 15 ≤ b.duration && b.duration ≤ 240

/-- `appointmentData = { ...req.body, createdBy: req.userId, status: "scheduled",
createdAt: now, updatedAt: now }` — the spread is copied first, then the four
overrides win over any client-supplied values. -/
def buildAppointmentData (b : CreateBody) (userId now newId : Nat) : Appointment :=
  { id := newId
    patientId := b.patientId
    doctorId := b.doctorId
    appointmentDate := b.appointmentDate
    appointmentTime := b.appointmentTime
    duration := b.duration
    type := b.type
    reason := b.reason
    notes := b.notes
    status := .scheduled
    createdBy := userId
    createdAt := now
    updatedAt := now }

/-- Row predicate of the conflict query in `POST /appointments`:
`.eq(doctorId, …).eq(appointmentDate, …).eq(status, "scheduled")
 .or("status.eq.confirmed,status.eq.in-progress")`.
PostgREST combines every chained filter, including an `.or(…)` group, with
logical AND, so the row must satisfy `status = scheduled` AND
(`status = confirmed` OR `status = in-progress`) simultaneously. -/
def conflictFilter (b : CreateBody) (r : Appointment) : Bool :=
  r.doctorId == b.doctorId && r.appointmentDate == b.appointmentDate &&
    r.status == .scheduled && (r.status == .confirmed || r.status == .inProgress)

/-- `POST /appointments`: validate, run the conflict query, then insert the
built `appointmentData`.  Returns the new table contents and the inserted row. -/
def createAppointment (db : List Appointment) (b : CreateBody)
    (userId now newId : Nat) : Except ApiError (List Appointment × Appointment) :=
  if !validCreate b then
    .error (.validation "Invalid appointment data")
  else
    let conflicts := db.filter (conflictFilter b)
    if conflicts.length > 0 then
      .error (.validation "Appointment time conflicts with existing appointments")
    else
      let apt := buildAppointmentData b userId now newId
      .ok (db ++ [apt], apt)

/-- Active-set statuses (spec §3 / glossary): those that occupy the time of a doctor. -/
def activeSet (s : Status) : Bool :=
  s == .scheduled || s == .confirmed || s == .inProgress

/-- Strict intersection of the half-open interval pairs (spec §4.2):
`[t1, t1+d1)` meets `[t2, t2+d2)`. -/
def intervalsIntersect (t1 d1 t2 d2 : Nat) : Bool :=
  t1 < t2 + d2 && t2 < t1 + d1

/-- Two distinct rows violate invariant I1: same doctor, same date, both in the
active set, intersecting time intervals. -/
def overlapPair (a b : Appointment) : Bool :=
  a.id != b.id && a.doctorId == b.doctorId &&
    a.appointmentDate == b.appointmentDate &&
    activeSet a.status && activeSet b.status &&
    intervalsIntersect a.appointmentTime a.duration b.appointmentTime b.duration

/-- Invariant I1 fails on the table: some pair of rows overlaps. -/
def overlapViolation (db : List Appointment) : Bool :=
  db.any (fun a => db.any (fun b => overlapPair a b))

/-- The JSON body of `PUT /appointments/:appointmentId` after
`validateAppointmentUpdate` (every field optional). -/
structure UpdateBody where
  appointmentDate : Option Nat
  appointmentTime : Option Nat
  duration : Option Nat
  status : Option Status
  type : Option AptType
  reason : Option String
  notes : Option String
deriving DecidableEq

/-- `validateAppointmentUpdate`: each supplied field must satisfy the same
constraint as on create. -/
def validUpdate (u : UpdateBody) : Bool :=
  (match u.appointmentTime with | none => true | some t => t < 1440) &&
  (match u.duration with | none => true | some d => 15 ≤ d && d ≤ 240)

/-- `updates = { ...req.body, updatedAt: now }` applied to the matched row:
each field present in the body replaces the stored one. -/
def applyUpdate (u : UpdateBody) (now : Nat) (r : Appointment) : Appointment :=
  { r with
    appointmentDate := u.appointmentDate.getD r.appointmentDate
    appointmentTime := u.appointmentTime.getD r.appointmentTime
    duration := u.duration.getD r.duration
    status := u.status.getD r.status
    type := u.type.getD r.type
    reason := match u.reason with | some s => some s | none => r.reason
    notes := match u.notes with | some s => some s | none => r.notes
    updatedAt := now }

/-- `PUT /appointments/:appointmentId`: validate the body, update the row with
the given id (`.single()` turns an empty match into `NotFoundError`).  No
conflict query appears on this path in the source. -/
def updateAppointment (db : List Appointment) (aptId : Nat) (u : UpdateBody)
    (now : Nat) : Except ApiError (List Appointment × Appointment) :=
  if !validUpdate u then
    .error (.validation "Invalid appointment data")
  else
    match db.find? (fun a => a.id == aptId) with
    | none => .error (.notFound "Appointment not found")
    | some r =>
      let r1 := applyUpdate u now r
      .ok (db.map (fun a => if a.id == aptId then r1 else a), r1)

/-- The status strings accepted by `PATCH /appointments/:appointmentId/status`
(the `includes` check over the six status strings), as a parse into the enumeration. -/
def statusFromString : String → Option Status
  | "scheduled" => some .scheduled
  | "confirmed" => some .confirmed
  | "in-progress" => some .inProgress
  | "completed" => some .completed
  | "cancelled" => some .cancelled
  | "no-show" => some .noShow
  | _ => none

/-- `PATCH /appointments/:appointmentId/status`: reject a string outside the
enumeration, otherwise write the requested status and `updatedAt` onto the
matched row.  The handler consults no transition table: the current status is
never read. -/
def updateAppointmentStatus (db : List Appointment) (aptId : Nat)
    (statusStr : String) (now : Nat) :
    Except ApiError (List Appointment × Appointment) :=
  match statusFromString statusStr with
  | none => .error (.validation "Invalid appointment status")
  | some st =>
    match db.find? (fun a => a.id == aptId) with
    | none => .error (.notFound "Appointment not found")
    | some r =>
      let r1 := { r with status := st, updatedAt := now }
      .ok (db.map (fun a => if a.id == aptId then r1 else a), r1)

/-- Optional `doctorId` query filter used by both schedule endpoints. -/
def matchDoctor : Option Nat → Appointment → Bool
  | none, _ => true
  | some d, r => r.doctorId == d

/-- Ascending order on `appointmentTime` (the sort key of the today view). -/
def timeLe (a b : Appointment) : Prop :=
  a.appointmentTime ≤ b.appointmentTime

instance : DecidableRel timeLe := fun a b =>
  inferInstanceAs (Decidable (a.appointmentTime ≤ b.appointmentTime))

instance : IsTotal Appointment timeLe :=
  ⟨fun a b => Nat.le_total a.appointmentTime b.appointmentTime⟩

instance : IsTrans Appointment timeLe :=
  ⟨fun _ _ _ hab hbc => Nat.le_trans hab hbc⟩

/-- Ascending order on `appointmentDate`, ties broken by `appointmentTime`
(the two chained `.order(…)` keys of the upcoming view). -/
def dateTimeLe (a b : Appointment) : Prop :=
  a.appointmentDate < b.appointmentDate ∨
    (a.appointmentDate = b.appointmentDate ∧ a.appointmentTime ≤ b.appointmentTime)

instance : DecidableRel dateTimeLe := fun a b =>
  inferInstanceAs (Decidable (a.appointmentDate < b.appointmentDate ∨
    (a.appointmentDate = b.appointmentDate ∧ a.appointmentTime ≤ b.appointmentTime)))

instance : IsTotal Appointment dateTimeLe := by
  constructor
  intro a b
  rcases Nat.lt_trichotomy a.appointmentDate b.appointmentDate with h | h | h
  · exact Or.inl (Or.inl h)
  · rcases Nat.le_total a.appointmentTime b.appointmentTime with ht | ht
    · exact Or.inl (Or.inr ⟨h, ht⟩)
    · exact Or.inr (Or.inr ⟨h.symm, ht⟩)
  · exact Or.inr (Or.inl h)

instance : IsTrans Appointment dateTimeLe := by
  constructor
  intro a b c hab hbc
  rcases hab with h1 | ⟨h1, t1⟩
  · rcases hbc with h2 | ⟨h2, _⟩
    · exact Or.inl (Nat.lt_trans h1 h2)
    · exact Or.inl (h2 ▸ h1)
  · rcases hbc with h2 | ⟨h2, t2⟩
    · exact Or.inl (h1 ▸ h2)
    · exact Or.inr ⟨h1.trans h2, Nat.le_trans t1 t2⟩

/-- `GET /appointments/today/schedule`: rows dated today whose status is in
`["scheduled", "confirmed", "in-progress"]`, optionally restricted to one doctor,
ordered by `appointmentTime` ascending. -/
def todaySchedule (db : List Appointment) (today : Nat) (doctorId : Option Nat) :
    List Appointment :=
  List.insertionSort timeLe
    (db.filter (fun r =>
      r.appointmentDate == today && activeSet r.status && matchDoctor doctorId r))

/-- `GET /appointments/upcoming/schedule`: rows dated in `[today, today+days]`
whose status is in `["scheduled", "confirmed"]` (note: `in-progress` is absent
here), optionally restricted to one doctor, ordered by date then time
ascending. -/
def upcomingSchedule (db : List Appointment) (today days : Nat)
    (doctorId : Option Nat) : List Appointment :=
  List.insertionSort dateTimeLe
    (db.filter (fun r =>
      today ≤ r.appointmentDate && r.appointmentDate ≤ today + days &&
        (r.status == .scheduled || r.status == .confirmed) && matchDoctor doctorId r))

/-- Query parameters of `GET /appointments` (defaults: `page=1`, `limit=20`,
`sortBy="appointmentDate"`, `sortOrder="asc"`). -/
structure ListQuery where
  page : Nat
  limit : Nat
  status : Option Status
  doctorId : Option Nat
  patientId : Option Nat
  date : Option Nat
  type : Option AptType
  sortBy : String
  sortOrder : String
deriving DecidableEq

/-- Conjunction of the optional `.eq` filters applied by the list handler. -/
def listFilter (q : ListQuery) (r : Appointment) : Bool :=
  (match q.status with | none => true | some s => r.status == s) &&
  (match q.doctorId with | none => true | some d => r.doctorId == d) &&
  (match q.patientId with | none => true | some p => r.patientId == p) &&
  (match q.date with | none => true | some d => r.appointmentDate == d) &&
  (match q.type with | none => true | some t => r.type == t)

/-- Columns of the `appointments` table; `.order(col)` on any other name is
rejected by the datastore. -/
def appointmentColumns : List String :=
  ["id", "patientId", "doctorId", "appointmentDate", "appointmentTime",
   "duration", "type", "status", "reason", "notes", "createdBy",
   "createdAt", "updatedAt"]

/-- Position of a status in its enumeration, for column comparison. -/
def statusIdx : Status → Nat
  | .scheduled => 0
  | .confirmed => 1
  | .inProgress => 2
  | .completed => 3
  | .cancelled => 4
  | .noShow => 5

/-- Position of an appointment type in its enumeration, for column
comparison. -/
def typeIdx : AptType → Nat
  | .consultation => 0
  | .followUp => 1
  | .emergency => 2
  | .routine => 3
  | .surgery => 4

/-- Comparison of two optional text fields (absent sorts first). -/
def compareOptStr : Option String → Option String → Ordering
  | none, none => .eq
  | none, some _ => .lt
  | some _, none => .gt
  | some s, some t => compare s t

/-- Column-wise comparison backing `.order(sortBy, …)`. -/
def appointmentFieldOrd (col : String) (a b : Appointment) : Ordering :=
  match col with
  | "id" => compare a.id b.id
  | "patientId" => compare a.patientId b.patientId
  | "doctorId" => compare a.doctorId b.doctorId
  | "appointmentDate" => compare a.appointmentDate b.appointmentDate
  | "appointmentTime" => compare a.appointmentTime b.appointmentTime
  | "duration" => compare a.duration b.duration
  | "type" => compare (typeIdx a.type) (typeIdx b.type)
  | "status" => compare (statusIdx a.status) (statusIdx b.status)
  | "reason" => compareOptStr a.reason b.reason
  | "notes" => compareOptStr a.notes b.notes
  | "createdBy" => compare a.createdBy b.createdBy
  | "createdAt" => compare a.createdAt b.createdAt
  | "updatedAt" => compare a.updatedAt b.updatedAt
  | _ => .eq

/-- Row order induced by a sort column and direction. -/
def orderRel (col : String) (asc : Bool) (a b : Appointment) : Prop :=
  if asc then appointmentFieldOrd col a b ≠ Ordering.gt
  else appointmentFieldOrd col b a ≠ Ordering.gt

instance (col : String) (asc : Bool) : DecidableRel (orderRel col asc) :=
  fun a b => by
    unfold orderRel
    split <;> exact inferInstance

/-- The request the list handler sends to the datastore: the built query is
shipped with the `sortBy` of the caller as the order column and the offset range
`[(page-1)*limit, (page-1)*limit + limit - 1]`. -/
structure ListRequest where
  table : String
  orderBy : String
  ascending : Bool
  rangeFrom : Nat
  rangeTo : Nat
deriving DecidableEq

/-- The query built by `GET /appointments` before it is awaited
(`offset = (page - 1) * limit`, `range(offset, offset + limit - 1)`). -/
def listAppointmentsRequest (q : ListQuery) : ListRequest :=
  { table := "appointments"
    orderBy := q.sortBy
    ascending := q.sortOrder == "asc"
    rangeFrom := (q.page - 1) * q.limit
    rangeTo := (q.page - 1) * q.limit + q.limit - 1 }

/-- Datastore execution of the shipped list query: an order column that is not
a column of the table is an error from the store; otherwise the filtered rows
are sorted, the inclusive range is sliced out, and the exact count of filtered
rows is returned alongside. -/
def runListRequest (db : List Appointment) (q : ListQuery) :
    Except String (List Appointment × Nat) :=
  let req := listAppointmentsRequest q
  if appointmentColumns.contains req.orderBy then
    let rows := List.insertionSort (orderRel req.orderBy req.ascending)
      (db.filter (listFilter q))
    .ok ((rows.drop req.rangeFrom).take (req.rangeTo + 1 - req.rangeFrom),
      rows.length)
  else
    .error "column does not exist"

/-- The pagination object assembled by the list handlers
(`totalPages = Math.ceil(count / limit)`, `hasNext = page < totalPages`,
`hasPrev = page > 1`). -/
structure Pagination where
  currentPage : Nat
  totalPages : Nat
  totalCount : Nat
  limit : Nat
  hasNext : Bool
  hasPrev : Bool
deriving DecidableEq

/-- `Math.ceil(a / b)` on naturals (for `b ≥ 1`). -/
def jsCeilDiv (a b : Nat) : Nat := (a + b - 1) / b

/-- `GET /appointments`: ship the built query to the store; a store error is
rethrown as `ValidationError("Failed to fetch appointments")` (after the store
call), otherwise the items and the pagination object are returned. -/
def listAppointments (db : List Appointment) (q : ListQuery) :
    Except ApiError (List Appointment × Pagination) :=
  match runListRequest db q with
  | .error _ => .error (.validation "Failed to fetch appointments")
  | .ok (items, count) =>
    let totalPages := jsCeilDiv count q.limit
    .ok (items,
      { currentPage := q.page
        totalPages := totalPages
        totalCount := count
        limit := q.limit
        hasNext := decide (q.page < totalPages)
        hasPrev := decide (q.page > 1) })

/-- The bearer credential of a request as `authenticateToken` discriminates it:
absent from the header, rejected by `jwt.verify` (invalid or expired), or
verified with an embedded user id. -/
inductive Credential where
  | missing
  | malformed
  | expired
  | valid (userId : Nat)
deriving DecidableEq

/-- `authenticateToken` (middleware/auth.js 5–56): no token → 401; a token
`jwt.verify` rejects (invalid or expired) → 403 `Invalid token`; a verified
token whose user the auth store does not know → 401; otherwise the request
proceeds with `req.userId` (and only that — `req.userRole` is not set here).
The result is the `(status, error)` of the JSON response on failure. -/
def authenticateToken (authUsers : List Nat) :
    Credential → Except (Nat × String) Nat
  | .missing => .error (401, "Access token required")
  | .malformed => .error (403, "Invalid token")
  | .expired => .error (403, "Invalid token")
  | .valid uid =>
    if authUsers.contains uid then .ok uid
    else .error (401, "User not found")

/-- A row of the `users` table as read by `requireRole`. -/
structure User where
  id : Nat
  role : Role
deriving DecidableEq

/-- `requireRole(roles)`: 401 without an authenticated user, 403 when the
stored profile is missing, 403 when its role is not in `roles`; on success the
stored role becomes `req.userRole`. -/
def requireRole (roles : List Role) (users : List User)
    (userId : Option Nat) : Except (Nat × String) Role :=
  match userId with
  | none => .error (401, "Authentication required")
  | some uid =>
    match users.find? (fun u => u.id == uid) with
    | none => .error (403, "Access denied")
    | some u =>
      if roles.contains u.role then .ok u.role
      else .error (403, "Insufficient permissions")

/-- `requireDoctor = requireRole(["doctor", "admin"])`. -/
def requireDoctor : List User → Option Nat → Except (Nat × String) Role :=
  requireRole [Role.doctor, Role.admin]

/-- `requireAdmin = requireRole(["admin"])`. -/
def requireAdmin : List User → Option Nat → Except (Nat × String) Role :=
  requireRole [Role.admin]

/-- The request fields `canAccessPatient` reads: `req.userId` and
`req.userRole` as left by earlier middleware, and the patient id from the
route params or the body. -/
structure AccessRequest where
  userId : Option Nat
  userRole : Option Role
  paramPatientId : Option Nat
  bodyPatientId : Option Nat
deriving DecidableEq

/-- `canAccessPatient` (middleware/auth.js 111–143): 400 without a patient id;
pass when `req.userRole` is `admin` or `doctor`; pass when it is `patient` and
`req.userId` equals the requested patient id; otherwise 403. -/
def canAccessPatient (req : AccessRequest) : Except (Nat × String) Unit :=
  match req.paramPatientId.orElse (fun _ => req.bodyPatientId) with
  | none => .error (400, "Patient ID required")
  | some pid =>
    if req.userRole == some .admin || req.userRole == some .doctor then
      .ok ()
    else if req.userRole == some .patient && req.userId == some pid then
      .ok ()
    else
      .error (403, "Access denied")

/-- A row of the `patients` table (only the id is consulted on this path). -/
structure Patient where
  id : Nat
  isActive : Bool
deriving DecidableEq

/-- `GET /patients/:patientId`.  Modelled from the spec: the application entry
point (`src/index.js`, not among the sources) mounts the patients router
behind a required JWT check, per the README all non-auth routes demand a
bearer token; `authenticateToken` attaches `req.user` / `req.userId` only.
The route chain itself is `router.get("/:patientId", canAccessPatient, …)` —
no `requireRole` runs, so `req.userRole` is still unset when the gate reads
it. -/
def getPatientRequest (uid pid : Nat) : AccessRequest :=
  { userId := some uid
    userRole := none
    paramPatientId := some pid
    bodyPatientId := none }

/-- The `GET /patients/:patientId` pipeline after authentication: the
ownership gate, then the row lookup (empty match → `NotFoundError`, mapped to
404 by the error handler). -/
def getPatientById (patients : List Patient) (uid pid : Nat) :
    Except (Nat × String) Patient :=
  match canAccessPatient (getPatientRequest uid pid) with
  | .error e => .error e
  | .ok _ =>
    match patients.find? (fun p => p.id == pid) with
    | none => .error (404, "Patient not found")
    | some p => .ok p

/-- `DELETE /appointments/:appointmentId`: the route chain is `requireDoctor`
then the handler, which hard-deletes the matching row (`.single()` turns an
empty match into `NotFoundError`, 404). -/
def deleteAppointment (users : List User) (db : List Appointment)
    (userId : Option Nat) (aptId : Nat) :
    Except (Nat × String) (List Appointment) :=
  match requireDoctor users userId with
  | .error e => .error e
  | .ok _ =>
    if db.any (fun a => a.id == aptId) then
      .ok (db.filter (fun a => !(a.id == aptId)))
    else
      .error (404, "Appointment not found")

/-- The status mapping of `errorHandler` (middleware/errorHandler.js): the
response code chosen from the `name` of the error, numeric `code` and `status`
fields, with the branches in source order. -/
def errorHandlerStatus (name : String) (code : Option Nat)
    (status : Option Nat) : Nat :=
  if name == "ValidationError" then 400
  else if name == "CastError" then 400
  else if code == some 11000 then 409
  else if name == "JsonWebTokenError" then 401
  else if name == "TokenExpiredError" then 401
  else if name == "UnauthorizedError" then 401
  else if name == "ForbiddenError" then 403
  else if name == "NotFoundError" then 404
  else if name == "RateLimitError" then 429
  else if name == "SupabaseError" then 500
  else status.getD 500

/-! Concrete fixtures used by the theorems below. -/

/-- A stored active appointment: doctor 1, date 100, 10:00 for 30 minutes. -/
def exApt : Appointment :=
  { id := 1
    patientId := 10
    doctorId := 1
    appointmentDate := 100
    appointmentTime := 600
    duration := 30
    type := .consultation
    status := .scheduled
    reason := none
    notes := none
    createdBy := 5
    createdAt := 0
    updatedAt := 0 }

/-- A creation request for the same doctor and date at 10:15 for 30 minutes —
its interval `[615, 645)` intersects the `[600, 630)` of `exApt`. -/
def exBody : CreateBody :=
  { patientId := 11
    doctorId := 1
    appointmentDate := 100
    appointmentTime := 615
    duration := 30
    type := .routine
    reason := none
    notes := none
    status := none
    createdBy := none
    createdAt := none
    updatedAt := none }

/-- A second stored appointment of doctor 1 on date 100, 11:00 for 30
minutes, not overlapping `exApt`. -/
def exApt2 : Appointment :=
  { exApt with id := 2, patientId := 12, appointmentTime := 660, status := .confirmed }

/-- An update body that moves an appointment to 10:15, into the slot of
`exApt`. -/
def exMove : UpdateBody :=
  { appointmentDate := none
    appointmentTime := some 615
    duration := none
    status := none
    type := none
    reason := none
    notes := none }

/-- A completed (terminal) appointment. -/
def exDone : Appointment := { exApt with id := 3, status := .completed }

/-- A cancelled (terminal) appointment. -/
def exCancelled : Appointment := { exApt with id := 4, status := .cancelled }

/-- An in-progress appointment dated inside the upcoming window. -/
def exInProgress : Appointment := { exApt with id := 5, status := .inProgress }

/-- A creation body that tries to smuggle its own status, creator and
timestamps. -/
def exSmuggle : CreateBody :=
  { exBody with
    status := some Status.completed
    createdBy := some 99
    createdAt := some 1
    updatedAt := some 2 }

/-- C1: the conflict check of `POST /appointments` compares no time intervals
at all, and its status filters (`status = scheduled` AND
(`status = confirmed` OR `status = in-progress`)) are jointly unsatisfiable, so
no row ever matches: a candidate whose interval `[615, 645)` strictly
intersects the stored active `[600, 630)` of the same doctor on the same date
is accepted, leaving the table in violation of invariant I1 — the claim that
any intersection fails with Conflict is false on the code. -/
theorem createAcceptsOverlappingInterval :
    (∀ (b : CreateBody) (r : Appointment), conflictFilter b r = false) ∧
    intervalsIntersect exApt.appointmentTime exApt.duration
      exBody.appointmentTime exBody.duration = true ∧
    activeSet exApt.status = true ∧
    createAppointment [exApt] exBody 5 50 2 =
      .ok ([exApt, buildAppointmentData exBody 5 50 2],
        buildAppointmentData exBody 5 50 2) ∧
    overlapViolation [exApt, buildAppointmentData exBody 5 50 2] = true := by
  refine ⟨fun b r => ?_, by decide, by decide, by decide, by decide⟩
  have key : (r.status == Status.scheduled &&
      (r.status == Status.confirmed || r.status == Status.inProgress)) = false := by
    cases r.status <;> rfl
  simp only [conflictFilter, Bool.and_assoc, key, Bool.and_false]

/-- C2 counterexample: a transition out of the terminal status `completed`
back to `scheduled` succeeds, though the claim says every transition from a
terminal status fails with InvalidTransition. -/
theorem terminalStatusTransitionAccepted :
    updateAppointmentStatus [exDone] 3 "scheduled" 77 =
      .ok ([{ exDone with status := .scheduled, updatedAt := 77 }],
        { exDone with status := .scheduled, updatedAt := 77 }) := by
  decide

/-- C2 amended: `PATCH /appointments/:appointmentId/status` enforces no
transition table — whenever the requested string parses to one of the six
enum statuses and the row exists, the new status is written regardless of the
current one; only a string outside the enum fails (with Validation). -/
theorem updateStatusIgnoresTransitionTable (db : List Appointment)
    (aptId : Nat) (s : String) (now : Nat) (st : Status) (r : Appointment)
    (hs : statusFromString s = some st)
    (hf : db.find? (fun a => a.id == aptId) = some r) :
    updateAppointmentStatus db aptId s now =
      .ok (db.map (fun a =>
          if a.id == aptId then { r with status := st, updatedAt := now } else a),
        { r with status := st, updatedAt := now }) := by
  simp [updateAppointmentStatus, hs, hf]

/-- Witness for C2 amended: a cancelled (terminal) appointment is moved to
`confirmed`. -/
theorem updateStatusIgnoresTransitionTableWitness :
    updateAppointmentStatus [exCancelled] 4 "confirmed" 88 =
      .ok ([exCancelled].map (fun a =>
          if a.id == 4 then { exCancelled with status := .confirmed, updatedAt := 88 } else a),
        { exCancelled with status := .confirmed, updatedAt := 88 }) :=
  updateStatusIgnoresTransitionTable [exCancelled] 4 "confirmed" 88
    .confirmed exCancelled (by decide) (by decide)

/-- C3 counterexample: `PUT /appointments/:appointmentId` moves `exApt2` into
the slot of `exApt` without any conflict scan — the update succeeds and the
resulting table holds two active, same-doctor, same-date appointments with
intersecting intervals, so invariant I1 does not hold after the update. -/
theorem updateIntroducesOverlapUnchecked :
    overlapViolation [exApt, exApt2] = false ∧
    updateAppointment [exApt, exApt2] 2 exMove 60 =
      .ok ([exApt, applyUpdate exMove 60 exApt2], applyUpdate exMove 60 exApt2) ∧
    overlapViolation [exApt, applyUpdate exMove 60 exApt2] = true := by
  decide

/-- C3 amended: the full-field update re-runs no conflict check — for every
table, as soon as the body passes field validation and the row exists, the
update succeeds with the fields applied, whatever intervals result. -/
theorem updateAppliesFieldsWithoutConflictScan (db : List Appointment)
    (aptId : Nat) (u : UpdateBody) (now : Nat) (r : Appointment)
    (hv : validUpdate u = true)
    (hf : db.find? (fun a => a.id == aptId) = some r) :
    updateAppointment db aptId u now =
      .ok (db.map (fun a => if a.id == aptId then applyUpdate u now r else a),
        applyUpdate u now r) := by
  simp [updateAppointment, hv, hf]

/-- Witness for C3 amended: the overlap-creating move of
`updateIntroducesOverlapUnchecked` discharged through the general theorem. -/
theorem updateAppliesFieldsWithoutConflictScanWitness :
    updateAppointment [exApt, exApt2] 2 exMove 60 =
      .ok ([exApt, exApt2].map (fun a =>
          if a.id == 2 then applyUpdate exMove 60 exApt2 else a),
        applyUpdate exMove 60 exApt2) :=
  updateAppliesFieldsWithoutConflictScan [exApt, exApt2] 2 exMove 60 exApt2
    (by decide) (by decide)

/-- C4: on `GET /patients/:patientId` the gate `canAccessPatient` reads
`req.userRole`, but the route chain runs no `requireRole`, and
`authenticateToken` sets only `req.user` / `req.userId`; with the role unset
the gate denies every caller — a patient requesting the record with their own
id gets 403, as does any other authenticated principal.  The gate itself,
handed a populated role, implements exactly the claimed rule (admin/doctor
pass; patient passes only on own id), locating the defect in the unset
`req.userRole`, not in the gate logic. -/
theorem patientRouteDeniesAllRoles :
    getPatientById [{ id := 1, isActive := true }] 1 1 =
      .error (403, "Access denied") ∧
    getPatientById [{ id := 1, isActive := true }] 2 1 =
      .error (403, "Access denied") ∧
    canAccessPatient
      { userId := some 1
        userRole := some Role.patient
        paramPatientId := some 1
        bodyPatientId := none } = .ok () ∧
    canAccessPatient
      { userId := some 1
        userRole := some Role.patient
        paramPatientId := some 2
        bodyPatientId := none } = .error (403, "Access denied") ∧
    canAccessPatient
      { userId := some 9
        userRole := some Role.admin
        paramPatientId := some 1
        bodyPatientId := none } = .ok () ∧
    canAccessPatient
      { userId := some 9
        userRole := some Role.doctor
        paramPatientId := some 1
        bodyPatientId := none } = .ok () := by
  decide

/-- C5: `authenticateToken` answers 401 for a missing token but 403 for a
token `jwt.verify` rejects (invalid or expired), so bad credentials are not
uniformly Unauthenticated/401; the error handler of the same codebase maps
`JsonWebTokenError` / `TokenExpiredError` to 401 and reserves 403 for
`ForbiddenError`, contradicting the inline 403. -/
theorem invalidCredentialAnswered403 :
    authenticateToken [] .missing = .error (401, "Access token required") ∧
    authenticateToken [] .malformed = .error (403, "Invalid token") ∧
    authenticateToken [] .expired = .error (403, "Invalid token") ∧
    errorHandlerStatus "JsonWebTokenError" none none = 401 ∧
    errorHandlerStatus "TokenExpiredError" none none = 401 ∧
    errorHandlerStatus "ForbiddenError" none none = 403 := by
  decide

/-- C6 counterexample: an in-progress appointment dated inside the upcoming
window is in the active set but absent from the upcoming view, whose status
filter lists only `scheduled` and `confirmed`. -/
theorem upcomingViewOmitsInProgress :
    activeSet exInProgress.status = true ∧
    100 ≤ exInProgress.appointmentDate ∧
    exInProgress.appointmentDate ≤ 100 + 7 ∧
    upcomingSchedule [exInProgress] 100 7 none = [] := by
  decide

/-- C6 amended: the today view holds exactly the appointments of the day with
status in the active set (matching the optional doctor filter), sorted by
time ascending; the upcoming view holds exactly those dated in
`[today, today+days]` with status `scheduled` or `confirmed` — not the whole
active set — sorted by date then time ascending. -/
theorem scheduleViewsContent (db : List Appointment) (today days : Nat)
    (docId : Option Nat) :
    List.Sorted timeLe (todaySchedule db today docId) ∧
    (∀ a : Appointment, a ∈ todaySchedule db today docId ↔
      a ∈ db ∧ a.appointmentDate = today ∧ activeSet a.status = true ∧
        (docId = none ∨ docId = some a.doctorId)) ∧
    List.Sorted dateTimeLe (upcomingSchedule db today days docId) ∧
    (∀ a : Appointment, a ∈ upcomingSchedule db today days docId ↔
      a ∈ db ∧ today ≤ a.appointmentDate ∧ a.appointmentDate ≤ today + days ∧
        (a.status = .scheduled ∨ a.status = .confirmed) ∧
        (docId = none ∨ docId = some a.doctorId)) := by
  refine ⟨List.sorted_insertionSort _ _, fun a => ?_,
    List.sorted_insertionSort _ _, fun a => ?_⟩
  · unfold todaySchedule
    rw [List.mem_insertionSort, List.mem_filter]
    cases docId with
    | none => simp [matchDoctor, and_assoc]
    | some d => simp [matchDoctor, and_assoc, @eq_comm Nat d]
  · unfold upcomingSchedule
    rw [List.mem_insertionSort, List.mem_filter]
    cases docId with
    | none => simp [matchDoctor, and_assoc, beq_iff_eq]
    | some d => simp [matchDoctor, and_assoc, beq_iff_eq, @eq_comm Nat d]

/-- C7: whenever `POST /appointments` succeeds, the inserted row carries
`status = scheduled`, `createdBy = req.userId` and both timestamps set to
now — whatever status, creator or timestamps the request body tried to carry,
since the handler overrides are applied after the body spread; the stored
table grows by exactly that row. -/
theorem createForcesScheduledStatus (db : List Appointment) (b : CreateBody)
    (userId now newId : Nat) (db2 : List Appointment) (apt : Appointment)
    (h : createAppointment db b userId now newId = .ok (db2, apt)) :
    apt.status = .scheduled ∧ apt.createdBy = userId ∧ apt.createdAt = now ∧
      apt.updatedAt = now ∧ db2 = db ++ [apt] := by
  by_cases hv : validCreate b
  · by_cases hc : (db.filter (conflictFilter b)).length > 0
    · simp [createAppointment, hv, hc] at h
    · simp [createAppointment, hv, hc] at h
      obtain ⟨h1, h2⟩ := h
      subst h2
      subst h1
      exact ⟨rfl, rfl, rfl, rfl, rfl⟩
  · simp [createAppointment, hv] at h

/-- Witness for C7: a body that smuggles `status = completed`,
`createdBy = 99` and foreign timestamps still yields a scheduled row created
by principal 5 at time 50. -/
theorem createForcesScheduledStatusWitness :
    (buildAppointmentData exSmuggle 5 50 7).status = .scheduled ∧
    (buildAppointmentData exSmuggle 5 50 7).createdBy = 5 ∧
    (buildAppointmentData exSmuggle 5 50 7).createdAt = 50 ∧
    (buildAppointmentData exSmuggle 5 50 7).updatedAt = 50 ∧
    [buildAppointmentData exSmuggle 5 50 7] =
      [] ++ [buildAppointmentData exSmuggle 5 50 7] :=
  createForcesScheduledStatus [] exSmuggle 5 50 7
    [buildAppointmentData exSmuggle 5 50 7]
    (buildAppointmentData exSmuggle 5 50 7) (by decide)

/-- C8: for every table and every list query with `page ≥ 1`, `limit ≥ 1` and
a recognised sort column, the response satisfies the pagination contract:
`currentPage = page`, `totalCount` counts the filtered rows,
`offset = (page-1)*limit` in the shipped range,
`totalPages = ceil(totalCount/limit)` (as `(totalCount+limit-1)/limit`),
`hasNext = page < totalPages`, `hasPrev = page > 1`, and the page holds
`min limit (totalCount - offset)` items. -/
theorem listPaginationContract (db : List Appointment) (q : ListQuery)
    (hl : 1 ≤ q.limit) (hs : q.sortBy ∈ appointmentColumns) :
    ∀ items pag, listAppointments db q = .ok (items, pag) →
      pag.currentPage = q.page ∧
      pag.totalCount = (db.filter (listFilter q)).length ∧
      pag.limit = q.limit ∧
      pag.totalPages = (pag.totalCount + q.limit - 1) / q.limit ∧
      pag.hasNext = decide (q.page < pag.totalPages) ∧
      pag.hasPrev = decide (1 < q.page) ∧
      (listAppointmentsRequest q).rangeFrom = (q.page - 1) * q.limit ∧
      items.length = min q.limit (pag.totalCount - (q.page - 1) * q.limit) := by
  intro items pag h
  have hc : appointmentColumns.contains q.sortBy = true := by simpa using hs
  have hlen : (List.insertionSort (orderRel q.sortBy (q.sortOrder == "asc"))
      (db.filter (listFilter q))).length = (db.filter (listFilter q)).length :=
    (List.perm_insertionSort _ _).length_eq
  simp only [listAppointments, runListRequest, listAppointmentsRequest, hc,
    if_true, Except.ok.injEq, Prod.mk.injEq] at h
  obtain ⟨hitems, hpag⟩ := h
  subst hitems
  subst hpag
  refine ⟨rfl, hlen, rfl, rfl, rfl, rfl, rfl, ?_⟩
  rw [List.length_take, List.length_drop, hlen]
  have hamt : (q.page - 1) * q.limit + q.limit - 1 + 1 - (q.page - 1) * q.limit
      = q.limit := by
    generalize (q.page - 1) * q.limit = off
    omega
  rw [hamt]

/-- Row number `n` of the 45-row pagination fixture. -/
def mkApt (n : Nat) : Appointment :=
  { exApt with id := n + 1, appointmentDate := 100 + n }

/-- A 45-row table, for the `totalCount = 45` scenario. -/
def db45 : List Appointment := (List.range 45).map mkApt

/-- The scenario query: page 3, limit 20, no filters, default sort. -/
def q45 : ListQuery :=
  { page := 3
    limit := 20
    status := none
    doctorId := none
    patientId := none
    date := none
    type := none
    sortBy := "appointmentDate"
    sortOrder := "asc" }

/-- Items of the scenario response. -/
def items45 : List Appointment :=
  match listAppointments db45 q45 with
  | .ok (i, _) => i
  | .error _ => []

/-- Pagination of the scenario response. -/
def pag45 : Pagination :=
  match listAppointments db45 q45 with
  | .ok (_, p) => p
  | .error _ => ⟨0, 0, 0, 0, false, false⟩

/-- Witness for C8: the contract applied to 45 rows with limit 20 at page 3,
together with the scenario values `totalPages = 3`, five items on the page,
`hasNext = false`, `hasPrev = true`. -/
theorem listPaginationContractWitness :
    (pag45.currentPage = q45.page ∧
      pag45.totalCount = (db45.filter (listFilter q45)).length ∧
      pag45.limit = q45.limit ∧
      pag45.totalPages = (pag45.totalCount + q45.limit - 1) / q45.limit ∧
      pag45.hasNext = decide (q45.page < pag45.totalPages) ∧
      pag45.hasPrev = decide (1 < q45.page) ∧
      (listAppointmentsRequest q45).rangeFrom = (q45.page - 1) * q45.limit ∧
      items45.length = min q45.limit (pag45.totalCount - (q45.page - 1) * q45.limit)) ∧
    pag45.totalCount = 45 ∧ pag45.totalPages = 3 ∧ items45.length = 5 ∧
    pag45.hasNext = false ∧ pag45.hasPrev = true :=
  ⟨listPaginationContract db45 q45 (by decide) (by decide) items45 pag45 (by decide),
    by decide, by decide, by decide, by decide, by decide⟩

/-- A list query whose sort name is not a column of the table. -/
def exBadQuery : ListQuery :=
  { q45 with page := 1, sortBy := "nosuchcolumn" }

/-- C9 counterexample: with an unrecognised sort field the handler does not
fail before the datastore call — the query shipped to the store carries the
invalid name as its order column, and only the resulting store error is then
rethrown as Validation. -/
theorem invalidSortNameShippedToStore :
    (listAppointmentsRequest exBadQuery).orderBy = "nosuchcolumn" ∧
    ("nosuchcolumn" ∈ appointmentColumns → False) ∧
    listAppointments [exApt] exBadQuery =
      .error (.validation "Failed to fetch appointments") := by
  decide

/-- C9 amended: for every unrecognised sort field, the request sent to the
datastore names that field, and the failure surfaces as Validation only after
the store rejects the column — not before the call. -/
theorem invalidSortRejectedAfterStoreCall (db : List Appointment)
    (q : ListQuery) (h : q.sortBy ∉ appointmentColumns) :
    (listAppointmentsRequest q).orderBy = q.sortBy ∧
    listAppointments db q = .error (.validation "Failed to fetch appointments") := by
  exact ⟨rfl, by simp [listAppointments, runListRequest, listAppointmentsRequest, h]⟩

/-- Witness for C9 amended: the unrecognised column of `exBadQuery` on an
empty table. -/
theorem invalidSortRejectedAfterStoreCallWitness :
    (listAppointmentsRequest exBadQuery).orderBy = exBadQuery.sortBy ∧
    listAppointments [] exBadQuery =
      .error (.validation "Failed to fetch appointments") :=
  invalidSortRejectedAfterStoreCall [] exBadQuery (by decide)

/-- A stored user with the doctor role. -/
def exDoctorUser : User := { id := 7, role := .doctor }

/-- A stored user with the patient role. -/
def exPatientUser : User := { id := 8, role := .patient }

/-- C10 counterexample: `DELETE /appointments/:appointmentId` is gated by
`requireDoctor`, whose role list is `["doctor", "admin"]` — a doctor
principal, who is not an admin, hard-deletes the row successfully, though the
claim says every non-admin fails with Forbidden. -/
theorem doctorHardDeleteSucceeds :
    exDoctorUser.role ≠ Role.admin ∧
    deleteAppointment [exDoctorUser] [exApt] (some 7) 1 = .ok [] := by
  decide

/-- C10 amended: the hard delete is gated by `requireDoctor`: a principal
whose stored role is doctor or admin removes the row (404 when it does not
exist), and any other role — patient — fails with 403. -/
theorem deleteGatedByDoctorOrAdmin (users : List User) (db : List Appointment)
    (uid aptId : Nat) (u : User)
    (hf : users.find? (fun x => x.id == uid) = some u) :
    deleteAppointment users db (some uid) aptId =
      if u.role = .doctor ∨ u.role = .admin then
        (if db.any (fun a => a.id == aptId) then
          .ok (db.filter (fun a => !(a.id == aptId)))
        else .error (404, "Appointment not found"))
      else .error (403, "Insufficient permissions") := by
  unfold deleteAppointment requireDoctor requireRole
  dsimp only
  rw [hf]
  cases hr : u.role <;> simp [hr]

/-- Witness for C10 amended: a patient principal is refused with 403. -/
theorem deleteGatedByDoctorOrAdminWitness :
    deleteAppointment [exPatientUser] [exApt] (some 8) 1 =
      if exPatientUser.role = .doctor ∨ exPatientUser.role = .admin then
        (if [exApt].any (fun a => a.id == 1) then
          .ok ([exApt].filter (fun a => !(a.id == 1)))
        else .error (404, "Appointment not found"))
      else .error (403, "Insufficient permissions") :=
  deleteGatedByDoctorOrAdmin [exPatientUser] [exApt] 8 1 exPatientUser (by decide)

end VG
